import Mathlib

/-!
Shallow embedding of the Telegram download-bot repository
(`ping.py`, `download.py`, `progress_manager.py`, `split.py`).

Numeric quantities that the Python code handles as floats (latencies,
percentages, megabyte sizes, durations) are embedded as rationals; file
existence and the outcome of remote sends are passed in as oracles, since
the Python code consults the file system and the messaging API for them.
-/

namespace BotTele

/-! ### Network prober (`ping.py`, `RetryManager`) -/

/-- The `NetworkStatus` enum from `ping.py`. -/
inductive NetworkStatus where
  | good
  | poor
  | offline
deriving DecidableEq, Repr

/-- Outcome of a single probe of the messaging API, as observed by the
`try`/`except` structure of `RetryManager.ping_telegram_api`: either a
response arrived (with HTTP-200 flag `ok` and a measured latency), or the
request timed out, or some other exception was raised. -/
inductive PingOutcome where
  | response (ok : Bool) (latency : ℚ)
  | timeout
  | error
deriving DecidableEq

/-- Field `timeout_threshold` of `RetryManager` (15 seconds). -/
def timeout_threshold : ℚ := 15

/-- The classification performed by `RetryManager.ping_telegram_api`:
status 200 with latency below 3s is GOOD, status 200 with latency below
the threshold is POOR, status 200 at or above the threshold is also POOR,
a non-200 response is POOR, and a timeout or exception is OFFLINE. -/
def ping_telegram_api (o : PingOutcome) : NetworkStatus :=
  match o with
  | .response ok latency =>
      if ok then
        if latency < 3 then .good
        else if latency < timeout_threshold then .poor
        else .poor
      else .poor
  | .timeout => .offline
  | .error => .offline

/-! ### Progress bar rendering (`progress_manager.py` and `split.py`) -/

/-- Python `int()` truncation toward zero on a rational. -/
def pyInt (q : ℚ) : ℤ :=
  if 0 ≤ q then ⌊q⌋ else ⌈q⌉

/-- The clamping step at the top of
`RealTimeProgressManager._create_progress_bar` and
`VideoSplitter.create_progress_bar`: percentages above 100 become 100,
percentages below 0 become 0. -/
def clampPercentage (percentage : ℚ) : ℚ :=
  if percentage > 100 then 100
  else if percentage < 0 then 0
  else percentage

/-- Number of filled glyphs in the rendered bar:
`int(percentage / 100 * width)` applied to the clamped percentage. -/
def barFilled (percentage : ℚ) (width : ℕ) : ℤ :=
  pyInt (clampPercentage percentage / 100 * width)

/-- The rendered ASCII bar of `_create_progress_bar` /
`create_progress_bar`: `filled` dark glyphs followed by `width - filled`
light glyphs; the numeric suffix displays the clamped percentage. -/
def create_progress_bar (percentage : ℚ) (width : ℕ) : String × ℚ :=
  let filled := (barFilled percentage width).toNat
  (String.mk (List.replicate filled '▓' ++ List.replicate (width - filled) '░'),
   clampPercentage percentage)

/-! ### History store (`download_history.json` records) -/

/-- One entry of `download_history.json`, as written by
`DownloadManager.log_dual_history` and read back by `RetryManager`.
Optional fields model JSON keys that may be absent; `retry_count` is read
with `entry.get('retry_count', 0)`, so an absent key behaves as `0` and we
store the defaulted value directly. `user_id` is `0` when the key is
absent or zero (both are falsy in the Python validation that consults
it). -/
structure DownloadRecord where
  download_id : Option String
  record_id : Option String
  user_id : ℕ
  username : String
  ftype : Option String
  file_size_mb : ℚ
  file_path : String
  download_status : String
  upload_status : String
  retry_count : ℕ
  last_retry : Option String
  upload_updated : Option String
deriving DecidableEq, Repr

/-- Python `a or b` on two optional strings: the right operand is used
when the left is absent or empty (falsy). This is
`entry.get('download_id') or entry.get('id')` in
`RetryManager.update_upload_status_in_history` and
`RetryManager.retry_failed_uploads`. -/
def pyOr (a b : Option String) : Option String :=
  match a with
  | some s => if s = "" then b else some s
  | none => b

/-- Python truthiness of an optional string: `none` and the empty string
are falsy. -/
def truthyStr (a : Option String) : Option String :=
  match a with
  | some s => if s = "" then none else some s
  | none => none

/-- Field `max_retries` of `RetryManager` (5). -/
def max_retries : ℕ := 5

/-- Function `RetryManager.get_failed_uploads_from_history`: keep exactly the
entries whose upload status is FAILED, whose download status is SUCCESS,
whose retry count is below `max_retries`, and whose file path exists on
disk (`fileExists` oracle). -/
def get_failed_uploads_from_history (fileExists : String → Bool)
    (history : List DownloadRecord) : List DownloadRecord :=
  history.filter (fun e =>
    e.upload_status == "FAILED" && e.download_status == "SUCCESS" &&
    decide (e.retry_count < max_retries) && fileExists e.file_path)

/-- The per-entry mutation done by
`RetryManager.update_upload_status_in_history` once an entry matches:
set the upload status and the update timestamp, then stamp `last_retry`
when the new status is SUCCESS and bump `retry_count` when it is
FAILED. -/
def updateEntry (nowIso nowHms newStatus : String) (e : DownloadRecord) :
    DownloadRecord :=
  let e1 := { e with upload_status := newStatus, upload_updated := some nowIso }
  if newStatus = "SUCCESS" then { e1 with last_retry := some nowHms }
  else if newStatus = "FAILED" then { e1 with retry_count := e1.retry_count + 1 }
  else e1

/-- Method `RetryManager.update_upload_status_in_history`: walk the history,
find the first entry whose identifier (`download_id`, falling back to the
legacy `id` key via Python `or`) equals the target, apply `updateEntry`
to it and stop; entries before and after it are untouched, and a history
with no match is written back unchanged. -/
def update_upload_status_in_history (nowIso nowHms target newStatus : String) :
    List DownloadRecord → List DownloadRecord
  | [] => []
  | e :: rest =>
      if pyOr e.download_id e.record_id = some target then
        updateEntry nowIso nowHms newStatus e :: rest
      else
        e :: update_upload_status_in_history nowIso nowHms target newStatus rest

/-- The standalone `update_upload_status_in_history` function of
`download.py`: find the first entry whose `download_id` equals the target
and set its upload status and update timestamp, leaving every other field
(including the retry counter) untouched. -/
def update_upload_status_in_history_standalone (nowIso target newStatus : String) :
    List DownloadRecord → List DownloadRecord
  | [] => []
  | e :: rest =>
      if e.download_id = some target then
        { e with upload_status := newStatus, upload_updated := some nowIso } :: rest
      else
        e :: update_upload_status_in_history_standalone nowIso target newStatus rest

/-- One status-update operation on the history store: either the
`RetryManager` method of `ping.py` or the standalone function of
`download.py`. -/
inductive UpdateOp where
  | managed (nowIso nowHms target newStatus : String)
  | plain (nowIso target newStatus : String)

/-- Apply one status-update operation to the history store. -/
def applyOp (op : UpdateOp) (hist : List DownloadRecord) : List DownloadRecord :=
  match op with
  | .managed nowIso nowHms target newStatus =>
      update_upload_status_in_history nowIso nowHms target newStatus hist
  | .plain nowIso target newStatus =>
      update_upload_status_in_history_standalone nowIso target newStatus hist

/-- A sequence of status-update operations over a record's lifetime. -/
def applyUpdates (ops : List UpdateOp) (hist : List DownloadRecord) :
    List DownloadRecord :=
  ops.foldl (fun h op => applyOp op h) hist

/-- A concrete history entry used as an evaluation point: a successful
download whose upload failed once and whose file is still present. -/
def sampleRecord : DownloadRecord :=
  { download_id := some "dl_1"
    record_id := none
    user_id := 7
    username := "alice"
    ftype := some "MP3"
    file_size_mb := 4
    file_path := "downloads/7/audio/a.mp3"
    download_status := "SUCCESS"
    upload_status := "FAILED"
    retry_count := 1
    last_retry := none
    upload_updated := none }

/-! ### Upload retry engine (`RetryManager.retry_failed_uploads`) -/

/-- Counts returned by a retry pass. -/
structure RetryStats where
  attempted : ℕ
  successful : ℕ
  failed : ℕ
deriving DecidableEq, Repr

/-- One call to `RetryManager.send_file_telegram` made during a retry
pass (chat target, file path, media kind). -/
structure SendCall where
  user_id : ℕ
  file_path : String
  ftype : String
deriving DecidableEq, Repr

/-- The `for upload in failed_uploads` loop of
`RetryManager.retry_failed_uploads`: entries at the retry ceiling are
skipped without counting; otherwise the attempt is counted, entries with
no truthy identifier or with a missing required field count as failed
without a send, and for the rest the messaging API is invoked (`sendOk`
oracle) and the history is rewritten with SUCCESS or FAILED accordingly.
Returns the accumulated counts, the final history and the trace of send
calls in order. -/
def retryLoop (sendOk : SendCall → Bool) (nowIso nowHms : String) :
    List DownloadRecord → List DownloadRecord →
    RetryStats × List DownloadRecord × List SendCall
  | [], hist => (⟨0, 0, 0⟩, hist, [])
  | u :: rest, hist =>
      if max_retries ≤ u.retry_count then
        retryLoop sendOk nowIso nowHms rest hist
      else
        match truthyStr (pyOr u.download_id u.record_id) with
        | none =>
            let (s, h, t) := retryLoop sendOk nowIso nowHms rest hist
            (⟨s.attempted + 1, s.successful, s.failed + 1⟩, h, t)
        | some did =>
            let ftypeVal := u.ftype.getD "UNKNOWN"
            if u.file_path = "" ∨ u.user_id = 0 ∨ ftypeVal = "" then
              let (s, h, t) := retryLoop sendOk nowIso nowHms rest hist
              (⟨s.attempted + 1, s.successful, s.failed + 1⟩, h, t)
            else
              let call : SendCall := ⟨u.user_id, u.file_path, ftypeVal⟩
              if sendOk call then
                let hist1 := update_upload_status_in_history nowIso nowHms did "SUCCESS" hist
                let (s, h, t) := retryLoop sendOk nowIso nowHms rest hist1
                (⟨s.attempted + 1, s.successful + 1, s.failed⟩, h, call :: t)
              else
                let hist1 := update_upload_status_in_history nowIso nowHms did "FAILED" hist
                let (s, h, t) := retryLoop sendOk nowIso nowHms rest hist1
                (⟨s.attempted + 1, s.successful, s.failed + 1⟩, h, call :: t)

/-- Method `RetryManager.retry_failed_uploads`: when the current network status
is not GOOD the pass returns zero counts immediately, touching neither
the history nor the messaging API; otherwise the retryable entries are
listed and the retry loop runs over that snapshot. -/
def retry_failed_uploads (status : NetworkStatus) (fileExists : String → Bool)
    (sendOk : SendCall → Bool) (nowIso nowHms : String)
    (hist : List DownloadRecord) :
    RetryStats × List DownloadRecord × List SendCall :=
  if status ≠ NetworkStatus.good then (⟨0, 0, 0⟩, hist, [])
  else
    let pending := get_failed_uploads_from_history fileExists hist
    if pending.isEmpty then (⟨0, 0, 0⟩, hist, [])
    else retryLoop sendOk nowIso nowHms pending hist

/-! ### Progress reporter (`progress_manager.py`, `RealTimeProgressManager`) -/

/-- The per-user entry of `active_progress`. -/
structure ProgressSession where
  chat_id : ℕ
  message_id : ℕ
  title : String
  last_percentage : ℚ
  last_status : String
  last_update : ℚ
  speed : Option String
  eta : Option String
deriving DecidableEq, Repr

/-- The throttling predicate of `RealTimeProgressManager.update_progress`:
transmit when the caller forces it, or the percentage moved at least 3
points since the last transmitted update, or at least 1.5 seconds passed,
or the status text changed, or the percentage reached 100. -/
def should_update (forceUpdate : Bool) (percentage : ℚ) (status : String)
    (s : ProgressSession) (now : ℚ) : Bool :=
  forceUpdate || decide (3 ≤ |percentage - s.last_percentage|) ||
  decide (3/2 ≤ now - s.last_update) || decide (status ≠ s.last_status) ||
  decide (100 ≤ percentage)

/-- Result of one `update_progress` call: the session state afterwards,
whether an `editMessageText` request was transmitted, and the returned
boolean. -/
structure UpdateResult where
  session : Option ProgressSession
  transmitted : Bool
  returned : Bool
deriving DecidableEq, Repr

/-- Method `RealTimeProgressManager.update_progress`: with no active session the
call returns False and touches nothing; with an active session the
throttling predicate decides whether an edit is transmitted — a throttled
call returns True with the session unchanged, a transmitted edit that the
API accepts (`editOk` oracle) records the new percentage, status, time,
speed and ETA and returns True, and a rejected edit leaves the session
data unchanged and returns False. -/
def update_progress (editOk : Bool) (now : ℚ) (percentage : ℚ) (status : String)
    (speed eta : Option String) (forceUpdate : Bool)
    (sess : Option ProgressSession) : UpdateResult :=
  match sess with
  | none => ⟨none, false, false⟩
  | some s =>
      if should_update forceUpdate percentage status s now then
        if editOk then
          ⟨some { s with
                    last_percentage := percentage,
                    last_status := status,
                    last_update := now,
                    speed := speed,
                    eta := eta },
           true, true⟩
        else ⟨some s, true, false⟩
      else ⟨some s, false, true⟩

/-- Method `RealTimeProgressManager.finish_progress`: with no active session the
call returns False and touches nothing; with an active session it forces
one final update (percentage pinned to 100 on success, held at the last
value on failure, with a default final status when none is given), then
deletes the session and returns True. -/
def finish_progress (editOk : Bool) (now : ℚ) (success : Bool)
    (finalMessage : Option String) (sess : Option ProgressSession) :
    UpdateResult :=
  match sess with
  | none => ⟨none, false, false⟩
  | some s =>
      let finalStatus := if success then finalMessage.getD "Complete!"
                         else finalMessage.getD "Failed!"
      let percentage := if success then (100 : ℚ) else s.last_percentage
      let r := update_progress editOk now percentage finalStatus none none true (some s)
      ⟨none, r.transmitted, true⟩

/-! ### Large-file splitter (`split.py`, `VideoSplitter`) -/

/-- Field `max_chunk_size_mb` of `VideoSplitter` (45 MB). -/
def max_chunk_size_mb : ℚ := 45

/-- Method `VideoSplitter.calculate_split_parts`: a file under the chunk ceiling
is a single part of the full duration; otherwise the number of parts is
the ceiling of size over chunk ceiling and the duration is divided
evenly. -/
def calculate_split_parts (fileSizeMb durationSeconds : ℚ) : ℤ × ℚ :=
  if fileSizeMb ≤ max_chunk_size_mb then (1, durationSeconds)
  else
    let numParts := ⌈fileSizeMb / max_chunk_size_mb⌉
    (numParts, durationSeconds / numParts)

/-- Method `VideoSplitter.send_split_parts`, with the outcome of each per-part
send given as a list of booleans: the loop counts successes and
failures. -/
def send_split_parts (outcomes : List Bool) : ℕ × ℕ :=
  (outcomes.countP id, outcomes.countP (fun b => !b))

/-- The human-readable summary returned by
`VideoSplitter.process_large_video` after the parts were sent. -/
inductive DeliveryReport where
  | allParts (total : ℕ)
  | someParts (successful total : ℕ)
  | noParts (total : ℕ)
deriving DecidableEq, Repr

/-- The final branch of `VideoSplitter.process_large_video` (after
splitting and sending): all parts delivered is an overall success, at
least one but not all delivered is still reported as an overall success
with the per-part counts, zero delivered is an overall failure. Returns
(overall flag, summary, successful count, failed count). -/
def process_large_video_result (outcomes : List Bool) :
    Bool × DeliveryReport × ℕ × ℕ :=
  let successful := (send_split_parts outcomes).1
  let failed := (send_split_parts outcomes).2
  let total := outcomes.length
  if successful = total then (true, .allParts total, successful, failed)
  else if 0 < successful then (true, .someParts successful total, successful, failed)
  else (false, .noParts total, successful, failed)

/-! ### Daily quota (`download.py`, `DownloadManager`) -/

/-- Field `daily_limit_mb` of `DownloadManager` (100 MB per user per
day). -/
def daily_limit_mb : ℚ := 100

/-- The per-user entry of `DownloadManager.user_usage`. -/
structure UserUsage where
  date : String
  used_mb : ℚ
deriving DecidableEq, Repr

/-- The rollover step shared by `check_daily_limit` and `update_usage`:
when there is no entry for the user, or the stored date differs from
today, the usage is reset to zero for today. -/
def rolloverUsage (today : String) (usage : Option UserUsage) : UserUsage :=
  match usage with
  | some u => if u.date = today then u else ⟨today, 0⟩
  | none => ⟨today, 0⟩

/-- Method `DownloadManager.check_daily_limit`: after the rollover step, the
remaining quota is the daily limit minus the used amount, and the request
is admitted exactly when its size fits in the remainder. Returns
((admitted, remaining), stored usage after the call). -/
def check_daily_limit (today : String) (usage : Option UserUsage)
    (sizeMb : ℚ) : (Bool × ℚ) × UserUsage :=
  let u := rolloverUsage today usage
  let remaining := daily_limit_mb - u.used_mb
  ((decide (sizeMb ≤ remaining), remaining), u)

/-- Method `DownloadManager.update_usage`: after the rollover step, add the
given size to the user's counter, unconditionally. -/
def update_usage (today : String) (usage : Option UserUsage) (sizeMb : ℚ) :
    UserUsage :=
  let u := rolloverUsage today usage
  { u with used_mb := u.used_mb + sizeMb }

/-- The size estimate computed in `DownloadManager.download_mp3`:
`duration/60 if duration else 5` minutes, times 1.0 MB per minute. -/
def estimated_mb_audio (durationSeconds : ℚ) : ℚ :=
  (if durationSeconds ≠ 0 then durationSeconds / 60 else 5) * 1

/-- The size estimate computed in `DownloadManager.download_mp4`:
`duration/60 if duration else 3` minutes, times 5.0 MB per minute. -/
def estimated_mb_video (durationSeconds : ℚ) : ℚ :=
  (if durationSeconds ≠ 0 then durationSeconds / 60 else 3) * 5

/-! ## Theorems -/

theorem clampPercentage_nonneg (p : ℚ) : 0 ≤ clampPercentage p := by
  unfold clampPercentage
  split_ifs <;> linarith

theorem clampPercentage_le (p : ℚ) : clampPercentage p ≤ 100 := by
  unfold clampPercentage
  split_ifs <;> linarith

theorem barFilled_arg_nonneg (p : ℚ) (w : ℕ) :
    0 ≤ clampPercentage p / 100 * w := by
  have h := clampPercentage_nonneg p
  positivity

theorem barFilled_nonneg (p : ℚ) (w : ℕ) : 0 ≤ barFilled p w := by
  unfold barFilled pyInt
  rw [if_pos (barFilled_arg_nonneg p w)]
  exact Int.floor_nonneg.mpr (barFilled_arg_nonneg p w)

theorem barFilled_le (p : ℚ) (w : ℕ) : barFilled p w ≤ (w : ℤ) := by
  unfold barFilled pyInt
  rw [if_pos (barFilled_arg_nonneg p w)]
  have h1 : clampPercentage p / 100 * w ≤ (w : ℚ) := by
    have h2 := clampPercentage_le p
    have h3 : clampPercentage p / 100 ≤ 1 := by linarith
    calc clampPercentage p / 100 * w ≤ 1 * w := by
          apply mul_le_mul_of_nonneg_right h3 (by positivity)
      _ = (w : ℚ) := one_mul _
  exact le_trans (Int.floor_le_floor h1) (by simp)

/-- C8: for every rational input percentage the renderer first clamps into
[0, 100] (an input of 150 renders as 100 and an input of -5 renders as 0),
and the filled portion of the bar is between 0 and the bar width. -/
theorem progress_bar_clamps_into_range (p : ℚ) (w : ℕ) :
    0 ≤ clampPercentage p ∧ clampPercentage p ≤ 100 ∧
    (create_progress_bar 150 w).2 = 100 ∧
    (create_progress_bar (-5) w).2 = 0 ∧
    0 ≤ barFilled p w ∧ (barFilled p w).toNat ≤ w := by
  refine ⟨clampPercentage_nonneg p, clampPercentage_le p, ?_, ?_,
    barFilled_nonneg p w, Int.toNat_le.mpr (barFilled_le p w)⟩
  · simp only [create_progress_bar]
    norm_num [clampPercentage]
  · simp only [create_progress_bar]
    norm_num [clampPercentage]

/-- C6: probe classification — an OK response under 3 s is GOOD, an OK
response between 3 s and 15 s is POOR, a timeout or exception is OFFLINE,
a non-OK response is POOR; in particular latency 1.2 s gives GOOD and
latency 8 s gives POOR. -/
theorem network_classification_policy :
    (∀ lat : ℚ, lat < 3 → ping_telegram_api (.response true lat) = .good) ∧
    (∀ lat : ℚ, 3 ≤ lat → lat < 15 →
        ping_telegram_api (.response true lat) = .poor) ∧
    ping_telegram_api PingOutcome.timeout = .offline ∧
    ping_telegram_api PingOutcome.error = .offline ∧
    (∀ lat : ℚ, ping_telegram_api (.response false lat) = .poor) ∧
    ping_telegram_api (.response true (12/10)) = .good ∧
    ping_telegram_api (.response true 8) = .poor := by
  refine ⟨?_, ?_, rfl, rfl, ?_, ?_, ?_⟩
  · intro lat h
    simp [ping_telegram_api, h]
  · intro lat h1 h2
    simp [ping_telegram_api, timeout_threshold]
    linarith
  · intro lat
    simp [ping_telegram_api]
  · simp [ping_telegram_api, timeout_threshold]
    norm_num
  · simp [ping_telegram_api, timeout_threshold]
    norm_num

theorem network_classification_policy_witness :
    ping_telegram_api (.response true (12/10)) = .good ∧
    ping_telegram_api (.response true 8) = .poor :=
  ⟨network_classification_policy.1 (12/10) (by norm_num),
   network_classification_policy.2.1 8 (by norm_num) (by norm_num)⟩

/-- C10: for a user with no active progress session, both the update
operation and the finish operation return False, transmit no message edit
and leave the (absent) session state untouched. -/
theorem inactive_session_noop (editOk : Bool) (now percentage : ℚ)
    (status : String) (speed eta : Option String) (forceUpdate success : Bool)
    (finalMessage : Option String) :
    update_progress editOk now percentage status speed eta forceUpdate none
      = ⟨none, false, false⟩ ∧
    finish_progress editOk now success finalMessage none
      = ⟨none, false, false⟩ :=
  ⟨rfl, rfl⟩

/-- C1: whenever the current network classification is not GOOD, a retry
pass returns the zero counts, performs no send call, and leaves the
history store untouched — whatever retryable records the store holds. -/
theorem retry_pass_noop_unless_good (status : NetworkStatus)
    (fileExists : String → Bool) (sendOk : SendCall → Bool)
    (nowIso nowHms : String) (hist : List DownloadRecord)
    (h : status ≠ NetworkStatus.good) :
    retry_failed_uploads status fileExists sendOk nowIso nowHms hist
      = (⟨0, 0, 0⟩, hist, []) := by
  unfold retry_failed_uploads
  rw [if_pos h]

theorem retry_pass_noop_unless_good_witness :
    retry_failed_uploads .poor (fun _ => true) (fun _ => true) "t" "u"
        [sampleRecord] = (⟨0, 0, 0⟩, [sampleRecord], []) ∧
    sampleRecord ∈ get_failed_uploads_from_history (fun _ => true) [sampleRecord] := by
  constructor
  · exact retry_pass_noop_unless_good .poor (fun _ => true) (fun _ => true)
      "t" "u" [sampleRecord] (by decide)
  · simp [get_failed_uploads_from_history, sampleRecord, max_retries]

/-- C2: every record returned by the retryable-uploads filter has download
status SUCCESS, upload status FAILED, a retry counter strictly below
`max_retries`, and a file path the existence oracle accepts. -/
theorem list_retryable_sound (fileExists : String → Bool)
    (hist : List DownloadRecord) (e : DownloadRecord)
    (h : e ∈ get_failed_uploads_from_history fileExists hist) :
    e.download_status = "SUCCESS" ∧ e.upload_status = "FAILED" ∧
    e.retry_count < max_retries ∧ fileExists e.file_path = true := by
  have hp := (List.mem_filter.mp h).2
  simp only [Bool.and_eq_true, beq_iff_eq, decide_eq_true_eq] at hp
  exact ⟨hp.1.1.2, hp.1.1.1, hp.1.2, hp.2⟩

theorem list_retryable_sound_witness :
    sampleRecord.download_status = "SUCCESS" ∧
    sampleRecord.upload_status = "FAILED" ∧
    sampleRecord.retry_count < max_retries ∧
    (fun _ : String => true) sampleRecord.file_path = true :=
  list_retryable_sound (fun _ => true) [sampleRecord] sampleRecord
    (by simp [get_failed_uploads_from_history, sampleRecord, max_retries])

theorem retry_count_updateEntry (a b s : String) (e : DownloadRecord) :
    (updateEntry a b s e).retry_count
      = e.retry_count + if s = "FAILED" then 1 else 0 := by
  unfold updateEntry
  split_ifs with h1 h2 <;> simp_all

theorem last_retry_updateEntry (a b s : String) (e : DownloadRecord) :
    (updateEntry a b s e).last_retry
      = if s = "SUCCESS" then some b else e.last_retry := by
  unfold updateEntry
  split_ifs with h1 h2 <;> simp_all

theorem retry_count_le_updateEntry (a b s : String) (e : DownloadRecord) :
    e.retry_count ≤ (updateEntry a b s e).retry_count := by
  rw [retry_count_updateEntry]
  split <;> simp

/-- Abbreviation for the pointwise retry-counter ordering between two
history snapshots. -/
def RetryLE (l1 l2 : List DownloadRecord) : Prop :=
  List.Forall₂ (fun a b => a.retry_count ≤ b.retry_count) l1 l2

theorem retryLE_refl (l : List DownloadRecord) : RetryLE l l :=
  List.forall₂_same.mpr fun _ _ => le_refl _

theorem retryLE_trans {l1 l2 l3 : List DownloadRecord}
    (h1 : RetryLE l1 l2) (h2 : RetryLE l2 l3) : RetryLE l1 l3 := by
  induction h1 generalizing l3 with
  | nil =>
      cases h2
      exact .nil
  | cons hab _ ih =>
      cases h2 with
      | cons hbc h3 => exact .cons (le_trans hab hbc) (ih h3)

theorem retryLE_update (a b t s : String) (l : List DownloadRecord) :
    RetryLE l (update_upload_status_in_history a b t s l) := by
  induction l with
  | nil => exact .nil
  | cons e rest ih =>
      unfold update_upload_status_in_history
      split
      · exact .cons (retry_count_le_updateEntry a b s e) (retryLE_refl rest)
      · exact .cons (le_refl _) ih

theorem retryLE_standalone (a t s : String) (l : List DownloadRecord) :
    RetryLE l (update_upload_status_in_history_standalone a t s l) := by
  induction l with
  | nil => exact .nil
  | cons e rest ih =>
      unfold update_upload_status_in_history_standalone
      split
      · exact .cons (le_refl _) (retryLE_refl rest)
      · exact .cons (le_refl _) ih

theorem retryLE_applyOp (op : UpdateOp) (l : List DownloadRecord) :
    RetryLE l (applyOp op l) := by
  cases op with
  | managed a b t s => exact retryLE_update a b t s l
  | plain a t s => exact retryLE_standalone a t s l

theorem retryLE_applyUpdates (ops : List UpdateOp) (l : List DownloadRecord) :
    RetryLE l (applyUpdates ops l) := by
  induction ops generalizing l with
  | nil => exact retryLE_refl l
  | cons op rest ih =>
      exact retryLE_trans (retryLE_applyOp op l) (ih (applyOp op l))

/-- C3: over any sequence of status-update operations (the `RetryManager`
method and the standalone variant), each record's retry counter never
decreases; the `RetryManager` update bumps the counter exactly when the
new status is FAILED, stamps the last-retry timestamp exactly when the
new status is SUCCESS, and locates a record by its `download_id` key or,
when that key is absent or empty, by the legacy `id` key. -/
theorem retry_counter_monotone :
    (∀ (ops : List UpdateOp) (hist : List DownloadRecord) (i : ℕ)
        (h1 : i < hist.length) (h2 : i < (applyUpdates ops hist).length),
        (hist.get ⟨i, h1⟩).retry_count
          ≤ ((applyUpdates ops hist).get ⟨i, h2⟩).retry_count) ∧
    (∀ a b s e, (updateEntry a b s e).retry_count
        = e.retry_count + if s = "FAILED" then 1 else 0) ∧
    (∀ a b s e, (updateEntry a b s e).last_retry
        = if s = "SUCCESS" then some b else e.last_retry) ∧
    (∀ a b s t (e : DownloadRecord) rest, e.download_id = some t → t ≠ "" →
        update_upload_status_in_history a b t s (e :: rest)
          = updateEntry a b s e :: rest) ∧
    (∀ a b s t (e : DownloadRecord) rest, truthyStr e.download_id = none →
        e.record_id = some t →
        update_upload_status_in_history a b t s (e :: rest)
          = updateEntry a b s e :: rest) := by
  refine ⟨?_, retry_count_updateEntry, last_retry_updateEntry, ?_, ?_⟩
  · intro ops hist i h1 h2
    exact (retryLE_applyUpdates ops hist).get h1 h2
  · intro a b s t e rest hdl ht
    have hc : pyOr e.download_id e.record_id = some t := by
      rw [hdl]
      simp [pyOr, ht]
    unfold update_upload_status_in_history
    rw [if_pos hc]
  · intro a b s t e rest hdl hid
    have hc : pyOr e.download_id e.record_id = some t := by
      cases hdid : e.download_id with
      | none => simp [pyOr, hid]
      | some v =>
          rw [hdid] at hdl
          simp only [truthyStr] at hdl
          by_cases hv : v = ""
          · simp [pyOr, hv, hid]
          · simp [hv] at hdl
    unfold update_upload_status_in_history
    rw [if_pos hc]

theorem retry_counter_monotone_witness :
    (updateEntry "i" "h" "FAILED" sampleRecord).retry_count
        = sampleRecord.retry_count + 1 ∧
    (updateEntry "i" "h" "SUCCESS" sampleRecord).last_retry = some "h" ∧
    update_upload_status_in_history "i" "h" "dl_1" "FAILED" [sampleRecord]
        = [updateEntry "i" "h" "FAILED" sampleRecord] ∧
    ([sampleRecord].get ⟨0, by simp⟩).retry_count
        ≤ ((applyUpdates [UpdateOp.managed "i" "h" "dl_1" "FAILED"]
              [sampleRecord]).get ⟨0, by simp [applyUpdates, applyOp,
                update_upload_status_in_history, pyOr, sampleRecord]⟩).retry_count := by
  refine ⟨?_, ?_, ?_, ?_⟩
  · rw [retry_counter_monotone.2.1]
    simp
  · rw [retry_counter_monotone.2.2.1]
    simp
  · exact retry_counter_monotone.2.2.2.1 "i" "h" "FAILED" "dl_1" sampleRecord []
      (by rfl) (by simp)
  · exact retry_counter_monotone.1 [UpdateOp.managed "i" "h" "dl_1" "FAILED"]
      [sampleRecord] 0 (by simp) (by simp [applyUpdates, applyOp,
        update_upload_status_in_history, pyOr, sampleRecord])

theorem should_update_iff (forceUpdate : Bool) (percentage : ℚ) (status : String)
    (s : ProgressSession) (now : ℚ) :
    should_update forceUpdate percentage status s now = true
      ↔ (forceUpdate = true ∨ 3 ≤ |percentage - s.last_percentage| ∨
         3/2 ≤ now - s.last_update ∨ status ≠ s.last_status ∨
         100 ≤ percentage) := by
  simp only [should_update, Bool.or_eq_true, decide_eq_true_eq, ne_eq]
  tauto

/-- C4: for an active session, an `editMessageText` request is transmitted
exactly when the force flag is set, or the percentage moved at least 3
points, or at least 1.5 seconds elapsed, or the status text changed, or
the percentage is at least 100; a call satisfying none of these leaves the
session untouched and returns True. -/
theorem progress_update_throttled (editOk : Bool) (now percentage : ℚ)
    (status : String) (speed eta : Option String) (forceUpdate : Bool)
    (s : ProgressSession) :
    ((update_progress editOk now percentage status speed eta forceUpdate
          (some s)).transmitted = true
      ↔ (forceUpdate = true ∨ 3 ≤ |percentage - s.last_percentage| ∨
         3/2 ≤ now - s.last_update ∨ status ≠ s.last_status ∨
         100 ≤ percentage)) ∧
    (¬(forceUpdate = true ∨ 3 ≤ |percentage - s.last_percentage| ∨
        3/2 ≤ now - s.last_update ∨ status ≠ s.last_status ∨
        100 ≤ percentage) →
      update_progress editOk now percentage status speed eta forceUpdate
          (some s) = ⟨some s, false, true⟩) := by
  have htx : (update_progress editOk now percentage status speed eta forceUpdate
      (some s)).transmitted = should_update forceUpdate percentage status s now := by
    simp only [update_progress]
    cases h : should_update forceUpdate percentage status s now <;>
      cases editOk <;> simp [h]
  constructor
  · rw [htx]
    exact should_update_iff forceUpdate percentage status s now
  · intro h
    have hb : should_update forceUpdate percentage status s now = false := by
      cases hb : should_update forceUpdate percentage status s now
      · rfl
      · exact absurd ((should_update_iff forceUpdate percentage status s now).mp hb) h
    simp [update_progress, hb]

theorem progress_update_throttled_witness :
    update_progress true (21/2) 51 "x" none none false
        (some ⟨1, 2, "t", 50, "x", 10, none, none⟩)
      = ⟨some ⟨1, 2, "t", 50, "x", 10, none, none⟩, false, true⟩ :=
  (progress_update_throttled true (21/2) 51 "x" none none false
      ⟨1, 2, "t", 50, "x", 10, none, none⟩).2 (by
    push_neg
    exact ⟨by simp, by norm_num, by norm_num, rfl, by norm_num⟩)

/-- C5: a 120 MB file with the 45 MB chunk ceiling and 600 s duration
splits into 3 parts of 200 s each; and for the delivery of N > 0 parts,
all parts succeeding yields an overall success, at least one but not all
succeeding still yields an overall success reported as partial with the
per-part counts, and zero successes yields an overall failure. -/
theorem split_parts_and_delivery_outcome :
    calculate_split_parts 120 600 = (3, 200) ∧
    (∀ outcomes : List Bool, 0 < outcomes.length →
      ((send_split_parts outcomes).1 = outcomes.length →
          process_large_video_result outcomes
            = (true, .allParts outcomes.length, (send_split_parts outcomes).1,
               (send_split_parts outcomes).2)) ∧
      (0 < (send_split_parts outcomes).1 →
          (send_split_parts outcomes).1 < outcomes.length →
          process_large_video_result outcomes
            = (true, .someParts (send_split_parts outcomes).1 outcomes.length,
               (send_split_parts outcomes).1, (send_split_parts outcomes).2)) ∧
      ((send_split_parts outcomes).1 = 0 →
          process_large_video_result outcomes
            = (false, .noParts outcomes.length, 0,
               (send_split_parts outcomes).2))) := by
  constructor
  · simp only [calculate_split_parts, max_chunk_size_mb]
    rw [if_neg (by norm_num)]
    rw [show ⌈(120:ℚ)/45⌉ = 3 by rw [Int.ceil_eq_iff]; norm_num]
    norm_num
  · intro outcomes hlen
    refine ⟨?_, ?_, ?_⟩
    · intro h1
      simp only [process_large_video_result]
      rw [if_pos h1, h1]
    · intro h1 h2
      simp only [process_large_video_result]
      rw [if_neg (Nat.ne_of_lt h2), if_pos h1]
    · intro h1
      simp only [process_large_video_result]
      rw [if_neg (by omega), if_neg (by omega), h1]

theorem split_parts_and_delivery_outcome_witness :
    process_large_video_result [true, true, true]
        = (true, .allParts 3, 3, 0) ∧
    process_large_video_result [true, false, true]
        = (true, .someParts 2 3, 2, 1) ∧
    process_large_video_result [false, false, false]
        = (false, .noParts 3, 0, 3) :=
  ⟨(split_parts_and_delivery_outcome.2 [true, true, true] (by decide)).1
      (by decide),
   (split_parts_and_delivery_outcome.2 [true, false, true] (by decide)).2.1
      (by decide) (by decide),
   (split_parts_and_delivery_outcome.2 [false, false, false] (by decide)).2.2
      (by decide)⟩

/-- C7: with the 100 MB daily limit, a user at 80 MB for the day is
rejected for an estimated 25 MB request (remaining 20 MB) and accepted
for 15 MB; the estimate is duration-in-minutes times 1.0 MB/min for audio
and 5.0 MB/min for video; and the usage counter resets to zero whenever
the stored date differs from today. -/
theorem daily_quota_policy (today : String) (u : UserUsage) :
    check_daily_limit today (some ⟨today, 80⟩) 25 = ((false, 20), ⟨today, 80⟩) ∧
    check_daily_limit today (some ⟨today, 80⟩) 15 = ((true, 20), ⟨today, 80⟩) ∧
    (∀ d : ℚ, d ≠ 0 →
        estimated_mb_audio d = d / 60 * 1 ∧
        estimated_mb_video d = d / 60 * 5) ∧
    (u.date ≠ today →
        rolloverUsage today (some u) = ⟨today, 0⟩ ∧
        ∀ sz : ℚ, check_daily_limit today (some u) sz
          = ((decide (sz ≤ 100), 100), ⟨today, 0⟩)) := by
  refine ⟨?_, ?_, ?_, ?_⟩
  · simp [check_daily_limit, rolloverUsage, daily_limit_mb]
    norm_num
  · simp [check_daily_limit, rolloverUsage, daily_limit_mb]
    norm_num
  · intro d hd
    simp [estimated_mb_audio, estimated_mb_video, hd]
  · intro h
    refine ⟨by simp [rolloverUsage, h], ?_⟩
    intro sz
    simp [check_daily_limit, rolloverUsage, h, daily_limit_mb]

theorem daily_quota_policy_witness :
    check_daily_limit "2025-01-02" (some ⟨"2025-01-02", 80⟩) 25
      = ((false, 20), ⟨"2025-01-02", 80⟩) ∧
    check_daily_limit "2025-01-02" (some ⟨"2025-01-02", 80⟩) 15
      = ((true, 20), ⟨"2025-01-02", 80⟩) ∧
    estimated_mb_audio 180 = 180 / 60 * 1 ∧
    rolloverUsage "2025-01-02" (some ⟨"2025-01-01", 80⟩) = ⟨"2025-01-02", 0⟩ :=
  ⟨(daily_quota_policy "2025-01-02" ⟨"2025-01-01", 80⟩).1,
   (daily_quota_policy "2025-01-02" ⟨"2025-01-01", 80⟩).2.1,
   ((daily_quota_policy "2025-01-02" ⟨"2025-01-01", 80⟩).2.2.1 180
      (by norm_num)).1,
   ((daily_quota_policy "2025-01-02" ⟨"2025-01-01", 80⟩).2.2.2
      (by decide)).1⟩

/-- C9: a same-day sequence where admission is decided against the
duration-based estimate (a 50-minute audio estimated at 50 MB is
admitted on a fresh day) but the completed download adds the measured
file size (150 MB) unconditionally, driving the stored counter past the
100 MB daily limit and making the next quota check report a negative
remaining value. -/
theorem usage_counter_can_exceed_daily_limit :
    (check_daily_limit "2025-01-01" none (estimated_mb_audio 3000)).1.1 = true ∧
    estimated_mb_audio 3000 = 50 ∧
    update_usage "2025-01-01" (some ⟨"2025-01-01", 0⟩) 150
      = ⟨"2025-01-01", 150⟩ ∧
    daily_limit_mb
      < (update_usage "2025-01-01" (some ⟨"2025-01-01", 0⟩) 150).used_mb ∧
    (check_daily_limit "2025-01-01"
        (some (update_usage "2025-01-01" (some ⟨"2025-01-01", 0⟩) 150)) 1).1.2
      = -50 ∧
    (check_daily_limit "2025-01-01"
        (some (update_usage "2025-01-01" (some ⟨"2025-01-01", 0⟩) 150)) 1).1.1
      = false := by
  refine ⟨?_, ?_, ?_, ?_, ?_, ?_⟩ <;>
    simp [check_daily_limit, rolloverUsage, update_usage, estimated_mb_audio,
      daily_limit_mb] <;> norm_num

end BotTele
